import Mathlib

/-!
# Service dispatch of `internal/store`

A shallow embedding of the six dispatch methods of `Store`
(`continuous_backup.go`, `processes.go`).  Every method branches on the
`service` field, narrows the held client to one of the two SDK client types,
forwards the call, drops the transport response and returns the remaining
pair.

The embedding passes the receiver explicitly and records every collaborator
call, so that each run yields the receiver after the call, the calls made and
the Go-level outcome (a returned pair, or a run-time panic).
-/

namespace MongoCLI

/-! ## Values owned by the SDKs -/

/-- The value types declared by the two client libraries
(`go-client-mongodb-atlas/mongodbatlas` and `ops-manager/opsmngr`).  The store
only passes them through, so they are kept abstract. `SdkError` stands for the
dynamic error types of the libraries and `errorText` for their `Error()`
method. -/
structure SdkTypes where
  ListOptions : Type
  ContinuousJobRequest : Type
  Checkpoints : Type
  ContinuousJobs : Type
  ContinuousSnapshots : Type
  ContinuousSnapshot : Type
  Process : Type
  Response : Type
  SdkError : Type
  errorText : SdkError → String

/-- Go `context.Context` values that can be built without a parent. -/
inductive Context
  | background
  | todo
  deriving DecidableEq, Repr

/-- A non-nil Go `error`: either the `*errors.errorString` built by
`fmt.Errorf` (format without `%w`), or an error value of an SDK type. -/
inductive GoError (T : SdkTypes)
  | errorString (s : String)
  | sdk (e : T.SdkError)

/-- The `Error()` method. -/
def GoError.Error {T : SdkTypes} : GoError T → String
  | .errorString s => s
  | .sdk e => T.errorText e

/-- The three values `(result, *Response, error)` returned by every SDK
service method; each of them may be nil. -/
structure Triple (T : SdkTypes) (α : Type) where
  result : Option α
  response : Option T.Response
  err : Option (GoError T)

/-- The service fields of `*atlas.Client` used by the store, as the methods
they expose.  `Processes.List` returns a slice, nil or not, of pointers. -/
structure AtlasClient (T : SdkTypes) where
  Checkpoints_List :
    Context → String → String → Option T.ListOptions → Triple T T.Checkpoints
  ContinuousRestoreJobs_List :
    Context → String → String → Option T.ListOptions → Triple T T.ContinuousJobs
  ContinuousRestoreJobs_Create :
    Context → String → String → Option T.ContinuousJobRequest → Triple T T.ContinuousJobs
  ContinuousSnapshots_List :
    Context → String → String → Option T.ListOptions → Triple T T.ContinuousSnapshots
  ContinuousSnapshots_Get :
    Context → String → String → String → Triple T T.ContinuousSnapshot
  Processes_List :
    Context → String → Option T.ListOptions → Triple T (List (Option T.Process))

/-- The service fields of `*opsmngr.Client` used by the store. -/
structure OpsmngrClient (T : SdkTypes) where
  Checkpoints_List :
    Context → String → String → Option T.ListOptions → Triple T T.Checkpoints
  ContinuousRestoreJobs_List :
    Context → String → String → Option T.ListOptions → Triple T T.ContinuousJobs
  ContinuousRestoreJobs_Create :
    Context → String → String → Option T.ContinuousJobRequest → Triple T T.ContinuousJobs
  ContinuousSnapshots_List :
    Context → String → String → Option T.ListOptions → Triple T T.ContinuousSnapshots
  ContinuousSnapshots_Get :
    Context → String → String → String → Triple T T.ContinuousSnapshot

/-! ## Configuration constants and the store -/

/-- Modelled from the spec: the constant `config.CloudService` of
`internal/config`, the mode value of the SaaS service. -/
def CloudService : String := "cloud"

/-- Modelled from the spec: the constant `config.CloudManagerService` of
`internal/config`, the first self-hosted mode value. -/
def CloudManagerService : String := "cloud-manager"

/-- Modelled from the spec: the constant `config.OpsManagerService` of
`internal/config`, the second self-hosted mode value. -/
def OpsManagerService : String := "ops-manager"

/-- The dynamic content of the `client interface{}` field: nothing, a
`*atlas.Client` or `*opsmngr.Client` (either pointer may be nil), or a value
of some other type. -/
inductive ClientRef (T : SdkTypes)
  | nilInterface
  | atlas (p : Option (AtlasClient T))
  | opsmngr (p : Option (OpsmngrClient T))
  | other (dynType : String)

/-- Modelled from the spec: the `Store` struct (declared in `store.go`), with
the two fields the dispatch methods read: the service mode and the client
reference. -/
structure Store (T : SdkTypes) where
  service : String
  client : ClientRef T

/-! ## Runs -/

/-- The two collaborator clients. -/
inductive Backend
  | atlas
  | opsmngr
  deriving DecidableEq, Repr

/-- An SDK method together with the arguments it was called with (the context
apart). -/
inductive Invocation (T : SdkTypes)
  | Checkpoints_List (projectID clusterID : String) (opts : Option T.ListOptions)
  | ContinuousRestoreJobs_List (projectID clusterID : String) (opts : Option T.ListOptions)
  | ContinuousRestoreJobs_Create (projectID clusterID : String)
      (request : Option T.ContinuousJobRequest)
  | ContinuousSnapshots_List (projectID clusterID : String) (opts : Option T.ListOptions)
  | ContinuousSnapshots_Get (projectID clusterID snapshotID : String)
  | Processes_List (groupID : String) (opts : Option T.ListOptions)

/-- One collaborator call: the client called, the context passed, the method
and its arguments. -/
structure Call (T : SdkTypes) where
  target : Backend
  ctx : Context
  invocation : Invocation T

/-- Run-time panics a dispatch method can raise itself. -/
inductive Panic
  | typeAssertion
  | nilPointerDereference
  deriving DecidableEq, Repr

/-- How a method ends: it returns its `(result, error)` pair, or panics. -/
inductive Outcome (T : SdkTypes) (α : Type)
  | returned (result : Option α) (err : Option (GoError T))
  | panicked (p : Panic)

/-- A run of a method: the receiver after the call, the collaborator calls
made in order, and the outcome. -/
structure Run (T : SdkTypes) (α : Type) where
  store : Store T
  calls : List (Call T)
  outcome : Outcome T α

variable {T : SdkTypes}

/-- The expression `s.client.(*atlas.Client)` followed by a field selection:
the assertion panics unless the dynamic type is `*atlas.Client`, the selection
panics on a nil pointer. -/
def ClientRef.asAtlas : ClientRef T → Except Panic (AtlasClient T)
  | .atlas (some c) => .ok c
  | .atlas none => .error .nilPointerDereference
  | .nilInterface => .error .typeAssertion
  | .opsmngr _ => .error .typeAssertion
  | .other _ => .error .typeAssertion

/-- The expression `s.client.(*opsmngr.Client)` followed by a field
selection. -/
def ClientRef.asOpsmngr : ClientRef T → Except Panic (OpsmngrClient T)
  | .opsmngr (some c) => .ok c
  | .opsmngr none => .error .nilPointerDereference
  | .nilInterface => .error .typeAssertion
  | .atlas _ => .error .typeAssertion
  | .other _ => .error .typeAssertion

/-- The value of `fmt.Errorf("unsupported service: %s", service)`. -/
def unsupportedService (service : String) : GoError T :=
  .errorString ("unsupported service: " ++ service)

/-- A run that panics before any collaborator call. -/
def Run.panic {α : Type} (s : Store T) (p : Panic) : Run T α :=
  ⟨s, [], .panicked p⟩

/-- The `default:` branch: `return nil, fmt.Errorf(...)`. -/
def Run.unsupported {α : Type} (s : Store T) : Run T α :=
  ⟨s, [], .returned none (some (unsupportedService s.service))⟩

/-- The two statements `result, _, err := <call>; return result, err`, the
call being recorded. -/
def Run.forward {α : Type} (s : Store T) (target : Backend) (ctx : Context)
    (inv : Invocation T) (reply : Triple T α) : Run T α :=
  ⟨s, [⟨target, ctx, inv⟩], .returned reply.result reply.err⟩

/-! ## The dispatch methods -/

/-- Method `Store.Checkpoints`, continuous_backup.go. -/
def Store.Checkpoints (s : Store T) (projectID clusterID : String)
    (opts : Option T.ListOptions) : Run T T.Checkpoints :=
  if s.service = CloudService then
    match s.client.asAtlas with
    | .error p => Run.panic s p
    | .ok c =>
      Run.forward s .atlas .background (.Checkpoints_List projectID clusterID opts)
        (c.Checkpoints_List .background projectID clusterID opts)
  else if s.service = CloudManagerService ∨ s.service = OpsManagerService then
    match s.client.asOpsmngr with
    | .error p => Run.panic s p
    | .ok c =>
      Run.forward s .opsmngr .background (.Checkpoints_List projectID clusterID opts)
        (c.Checkpoints_List .background projectID clusterID opts)
  else Run.unsupported s

/-- Method `Store.ContinuousRestoreJobs`, continuous_backup.go. -/
def Store.ContinuousRestoreJobs (s : Store T) (projectID clusterID : String)
    (opts : Option T.ListOptions) : Run T T.ContinuousJobs :=
  if s.service = CloudService then
    match s.client.asAtlas with
    | .error p => Run.panic s p
    | .ok c =>
      Run.forward s .atlas .background (.ContinuousRestoreJobs_List projectID clusterID opts)
        (c.ContinuousRestoreJobs_List .background projectID clusterID opts)
  else if s.service = OpsManagerService ∨ s.service = CloudManagerService then
    match s.client.asOpsmngr with
    | .error p => Run.panic s p
    | .ok c =>
      Run.forward s .opsmngr .background (.ContinuousRestoreJobs_List projectID clusterID opts)
        (c.ContinuousRestoreJobs_List .background projectID clusterID opts)
  else Run.unsupported s

/-- Method `Store.CreateContinuousRestoreJob`, continuous_backup.go. -/
def Store.CreateContinuousRestoreJob (s : Store T) (projectID clusterID : String)
    (request : Option T.ContinuousJobRequest) : Run T T.ContinuousJobs :=
  if s.service = CloudService then
    match s.client.asAtlas with
    | .error p => Run.panic s p
    | .ok c =>
      Run.forward s .atlas .background
        (.ContinuousRestoreJobs_Create projectID clusterID request)
        (c.ContinuousRestoreJobs_Create .background projectID clusterID request)
  else if s.service = OpsManagerService ∨ s.service = CloudManagerService then
    match s.client.asOpsmngr with
    | .error p => Run.panic s p
    | .ok c =>
      Run.forward s .opsmngr .background
        (.ContinuousRestoreJobs_Create projectID clusterID request)
        (c.ContinuousRestoreJobs_Create .background projectID clusterID request)
  else Run.unsupported s

/-- Method `Store.ContinuousSnapshots`, continuous_backup.go. -/
def Store.ContinuousSnapshots (s : Store T) (projectID clusterID : String)
    (opts : Option T.ListOptions) : Run T T.ContinuousSnapshots :=
  if s.service = CloudService then
    match s.client.asAtlas with
    | .error p => Run.panic s p
    | .ok c =>
      Run.forward s .atlas .background (.ContinuousSnapshots_List projectID clusterID opts)
        (c.ContinuousSnapshots_List .background projectID clusterID opts)
  else if s.service = OpsManagerService ∨ s.service = CloudManagerService then
    match s.client.asOpsmngr with
    | .error p => Run.panic s p
    | .ok c =>
      Run.forward s .opsmngr .background (.ContinuousSnapshots_List projectID clusterID opts)
        (c.ContinuousSnapshots_List .background projectID clusterID opts)
  else Run.unsupported s

/-- Method `Store.ContinuousSnapshot`, continuous_backup.go. -/
def Store.ContinuousSnapshot (s : Store T) (projectID clusterID snapshotID : String) :
    Run T T.ContinuousSnapshot :=
  if s.service = CloudService then
    match s.client.asAtlas with
    | .error p => Run.panic s p
    | .ok c =>
      Run.forward s .atlas .background
        (.ContinuousSnapshots_Get projectID clusterID snapshotID)
        (c.ContinuousSnapshots_Get .background projectID clusterID snapshotID)
  else if s.service = OpsManagerService ∨ s.service = CloudManagerService then
    match s.client.asOpsmngr with
    | .error p => Run.panic s p
    | .ok c =>
      Run.forward s .opsmngr .background
        (.ContinuousSnapshots_Get projectID clusterID snapshotID)
        (c.ContinuousSnapshots_Get .background projectID clusterID snapshotID)
  else Run.unsupported s

/-- Method `Store.Processes`, processes.go: only the SaaS branch exists. -/
def Store.Processes (s : Store T) (groupID : String) (opts : Option T.ListOptions) :
    Run T (List (Option T.Process)) :=
  if s.service = CloudService then
    match s.client.asAtlas with
    | .error p => Run.panic s p
    | .ok c =>
      Run.forward s .atlas .background (.Processes_List groupID opts)
        (c.Processes_List .background groupID opts)
  else Run.unsupported s

/-! ## Predicates used in the statements -/

/-- The two mode values served by the self-hosted client. -/
def SelfHosted (m : String) : Prop :=
  m = CloudManagerService ∨ m = OpsManagerService

/-- The three mode values the dispatch methods know. -/
def Recognized (m : String) : Prop :=
  m = CloudService ∨ m = CloudManagerService ∨ m = OpsManagerService

instance (m : String) : Decidable (SelfHosted m) := by
  unfold SelfHosted; infer_instance

instance (m : String) : Decidable (Recognized m) := by
  unfold Recognized; infer_instance

/-- The dynamic type of the held value is `*atlas.Client`. -/
def ClientRef.isAtlas : ClientRef T → Bool
  | .atlas _ => true
  | _ => false

/-- The dynamic type of the held value is `*opsmngr.Client`. -/
def ClientRef.isOpsmngr : ClientRef T → Bool
  | .opsmngr _ => true
  | _ => false

/-- The pairing of mode and client the dispatch relies on: a SaaS client under
`cloud`, a self-hosted client under `cloud-manager` and `ops-manager`. -/
def Store.Paired (s : Store T) : Prop :=
  (s.service = CloudService ∧ ∃ c, s.client = .atlas (some c)) ∨
  (SelfHosted s.service ∧ ∃ c, s.client = .opsmngr (some c))

/-- The clients called by a run, in order. -/
def Run.targets {α : Type} (r : Run T α) : List Backend :=
  r.calls.map Call.target

/-- Two SDK replies that differ at most in the transport response. -/
def Triple.SameVisible {α : Type} (x y : Triple T α) : Prop :=
  x.result = y.result ∧ x.err = y.err

/-- The held client does not have the dynamic type the mode calls for. -/
def Store.Mismatched (s : Store T) : Prop :=
  (s.service = CloudService ∧ s.client.isAtlas = false) ∨
  (SelfHosted s.service ∧ s.client.isOpsmngr = false)

/-! ## Sample instances -/

/-- Small concrete value types: numbers for the records, text for errors. -/
@[reducible] def SdkTypes.sample : SdkTypes :=
  { ListOptions := Nat
    ContinuousJobRequest := Nat
    Checkpoints := Nat
    ContinuousJobs := Nat
    ContinuousSnapshots := Nat
    ContinuousSnapshot := Nat
    Process := Nat
    Response := Nat
    SdkError := String
    errorText := id }

/-- A SaaS client whose calls fail with status 500 while still handing back a
record. -/
def failingAtlas : AtlasClient SdkTypes.sample :=
  { Checkpoints_List := fun _ _ _ _ => ⟨some 7, some 500, some (.sdk "boom")⟩
    ContinuousRestoreJobs_List := fun _ _ _ _ => ⟨some 7, some 500, some (.sdk "boom")⟩
    ContinuousRestoreJobs_Create := fun _ _ _ _ => ⟨some 7, some 500, some (.sdk "boom")⟩
    ContinuousSnapshots_List := fun _ _ _ _ => ⟨some 7, some 500, some (.sdk "boom")⟩
    ContinuousSnapshots_Get := fun _ _ _ _ => ⟨some 7, some 500, some (.sdk "boom")⟩
    Processes_List := fun _ _ _ => ⟨some [some 7], some 500, some (.sdk "boom")⟩ }

/-- A SaaS client answering every call with the given response value. -/
def atlasWithResponse (resp : Option Nat) : AtlasClient SdkTypes.sample :=
  { Checkpoints_List := fun _ _ _ _ => ⟨some 1, resp, none⟩
    ContinuousRestoreJobs_List := fun _ _ _ _ => ⟨some 2, resp, none⟩
    ContinuousRestoreJobs_Create := fun _ _ _ r => ⟨r, resp, none⟩
    ContinuousSnapshots_List := fun _ _ _ _ => ⟨some 4, resp, none⟩
    ContinuousSnapshots_Get := fun _ _ _ _ => ⟨some 5, resp, none⟩
    Processes_List := fun _ _ _ => ⟨some [some 6, none], resp, none⟩ }

/-- A self-hosted client answering every call successfully. -/
def sampleOpsmngr : OpsmngrClient SdkTypes.sample :=
  { Checkpoints_List := fun _ _ _ _ => ⟨some 11, some 200, none⟩
    ContinuousRestoreJobs_List := fun _ _ _ _ => ⟨some 12, some 200, none⟩
    ContinuousRestoreJobs_Create := fun _ _ _ r => ⟨r, some 201, none⟩
    ContinuousSnapshots_List := fun _ _ _ _ => ⟨some 14, some 200, none⟩
    ContinuousSnapshots_Get := fun _ _ _ _ => ⟨none, some 404, some (.sdk "not found")⟩ }

/-! ## SaaS mode -/

/-- C1: under mode `cloud` with a SaaS client, each of the six methods leaves
the store as it was, makes exactly one call, to the corresponding method of the
SaaS client with `context.Background()` and its own arguments in order, and
returns the result and the error of that call. -/
theorem cloud_forwards_to_atlas (c : AtlasClient T) (projectID clusterID snapshotID : String)
    (opts : Option T.ListOptions) (request : Option T.ContinuousJobRequest) :
    let s : Store T := ⟨CloudService, .atlas (some c)⟩
    s.Checkpoints projectID clusterID opts =
        ⟨s, [⟨.atlas, .background, .Checkpoints_List projectID clusterID opts⟩],
          .returned (c.Checkpoints_List .background projectID clusterID opts).result
            (c.Checkpoints_List .background projectID clusterID opts).err⟩ ∧
    s.ContinuousRestoreJobs projectID clusterID opts =
        ⟨s, [⟨.atlas, .background, .ContinuousRestoreJobs_List projectID clusterID opts⟩],
          .returned (c.ContinuousRestoreJobs_List .background projectID clusterID opts).result
            (c.ContinuousRestoreJobs_List .background projectID clusterID opts).err⟩ ∧
    s.CreateContinuousRestoreJob projectID clusterID request =
        ⟨s, [⟨.atlas, .background, .ContinuousRestoreJobs_Create projectID clusterID request⟩],
          .returned
            (c.ContinuousRestoreJobs_Create .background projectID clusterID request).result
            (c.ContinuousRestoreJobs_Create .background projectID clusterID request).err⟩ ∧
    s.ContinuousSnapshots projectID clusterID opts =
        ⟨s, [⟨.atlas, .background, .ContinuousSnapshots_List projectID clusterID opts⟩],
          .returned (c.ContinuousSnapshots_List .background projectID clusterID opts).result
            (c.ContinuousSnapshots_List .background projectID clusterID opts).err⟩ ∧
    s.ContinuousSnapshot projectID clusterID snapshotID =
        ⟨s, [⟨.atlas, .background, .ContinuousSnapshots_Get projectID clusterID snapshotID⟩],
          .returned
            (c.ContinuousSnapshots_Get .background projectID clusterID snapshotID).result
            (c.ContinuousSnapshots_Get .background projectID clusterID snapshotID).err⟩ ∧
    s.Processes projectID opts =
        ⟨s, [⟨.atlas, .background, .Processes_List projectID opts⟩],
          .returned (c.Processes_List .background projectID opts).result
            (c.Processes_List .background projectID opts).err⟩ := by
  intro s
  refine ⟨?_, ?_, ?_, ?_, ?_, ?_⟩ <;> rfl

/-! ## Self-hosted modes -/

/-- C2: under mode `cloud-manager` or `ops-manager` with a self-hosted client,
each of the five backup methods leaves the store as it was, makes exactly one
call, to the analogous method of the self-hosted client with its own arguments
in order, and returns the result and the error of that call; the calls and the
outcome are the same under the two modes. -/
theorem self_hosted_forwards_to_opsmngr (m : String) (hm : SelfHosted m)
    (c : OpsmngrClient T) (projectID clusterID snapshotID : String)
    (opts : Option T.ListOptions) (request : Option T.ContinuousJobRequest) :
    let s : Store T := ⟨m, .opsmngr (some c)⟩
    let cm : Store T := ⟨CloudManagerService, .opsmngr (some c)⟩
    let om : Store T := ⟨OpsManagerService, .opsmngr (some c)⟩
    (s.Checkpoints projectID clusterID opts =
        ⟨s, [⟨.opsmngr, .background, .Checkpoints_List projectID clusterID opts⟩],
          .returned (c.Checkpoints_List .background projectID clusterID opts).result
            (c.Checkpoints_List .background projectID clusterID opts).err⟩ ∧
      s.ContinuousRestoreJobs projectID clusterID opts =
        ⟨s, [⟨.opsmngr, .background, .ContinuousRestoreJobs_List projectID clusterID opts⟩],
          .returned (c.ContinuousRestoreJobs_List .background projectID clusterID opts).result
            (c.ContinuousRestoreJobs_List .background projectID clusterID opts).err⟩ ∧
      s.CreateContinuousRestoreJob projectID clusterID request =
        ⟨s, [⟨.opsmngr, .background,
              .ContinuousRestoreJobs_Create projectID clusterID request⟩],
          .returned
            (c.ContinuousRestoreJobs_Create .background projectID clusterID request).result
            (c.ContinuousRestoreJobs_Create .background projectID clusterID request).err⟩ ∧
      s.ContinuousSnapshots projectID clusterID opts =
        ⟨s, [⟨.opsmngr, .background, .ContinuousSnapshots_List projectID clusterID opts⟩],
          .returned (c.ContinuousSnapshots_List .background projectID clusterID opts).result
            (c.ContinuousSnapshots_List .background projectID clusterID opts).err⟩ ∧
      s.ContinuousSnapshot projectID clusterID snapshotID =
        ⟨s, [⟨.opsmngr, .background,
              .ContinuousSnapshots_Get projectID clusterID snapshotID⟩],
          .returned
            (c.ContinuousSnapshots_Get .background projectID clusterID snapshotID).result
            (c.ContinuousSnapshots_Get .background projectID clusterID snapshotID).err⟩) ∧
    ((cm.Checkpoints projectID clusterID opts).calls =
        (om.Checkpoints projectID clusterID opts).calls ∧
      (cm.Checkpoints projectID clusterID opts).outcome =
        (om.Checkpoints projectID clusterID opts).outcome ∧
      (cm.ContinuousRestoreJobs projectID clusterID opts).calls =
        (om.ContinuousRestoreJobs projectID clusterID opts).calls ∧
      (cm.ContinuousRestoreJobs projectID clusterID opts).outcome =
        (om.ContinuousRestoreJobs projectID clusterID opts).outcome ∧
      (cm.CreateContinuousRestoreJob projectID clusterID request).calls =
        (om.CreateContinuousRestoreJob projectID clusterID request).calls ∧
      (cm.CreateContinuousRestoreJob projectID clusterID request).outcome =
        (om.CreateContinuousRestoreJob projectID clusterID request).outcome ∧
      (cm.ContinuousSnapshots projectID clusterID opts).calls =
        (om.ContinuousSnapshots projectID clusterID opts).calls ∧
      (cm.ContinuousSnapshots projectID clusterID opts).outcome =
        (om.ContinuousSnapshots projectID clusterID opts).outcome ∧
      (cm.ContinuousSnapshot projectID clusterID snapshotID).calls =
        (om.ContinuousSnapshot projectID clusterID snapshotID).calls ∧
      (cm.ContinuousSnapshot projectID clusterID snapshotID).outcome =
        (om.ContinuousSnapshot projectID clusterID snapshotID).outcome) := by
  intro s cm om
  refine ⟨?_, ?_⟩
  · rcases hm with h | h <;> subst h <;>
      exact ⟨rfl, rfl, rfl, rfl, rfl⟩
  · exact ⟨rfl, rfl, rfl, rfl, rfl, rfl, rfl, rfl, rfl, rfl⟩

/-- Witness of C2 at mode `ops-manager`. -/
theorem self_hosted_forwards_to_opsmngr_witness :
    SelfHosted "ops-manager" ∧
    (Store.ContinuousSnapshot (⟨"ops-manager", .opsmngr (some sampleOpsmngr)⟩ :
        Store SdkTypes.sample) "p1" "c1" "s1") =
      ⟨⟨"ops-manager", .opsmngr (some sampleOpsmngr)⟩,
        [⟨.opsmngr, .background, .ContinuousSnapshots_Get "p1" "c1" "s1"⟩],
        .returned none (some (.sdk "not found"))⟩ :=
  ⟨Or.inr rfl,
    (self_hosted_forwards_to_opsmngr "ops-manager" (Or.inr rfl) sampleOpsmngr
      "p1" "c1" "s1" none none).1.2.2.2.2⟩

/-! ## Unrecognised modes -/

/-- C3: when the mode is none of `cloud`, `cloud-manager`, `ops-manager`, each
of the six methods, whatever the held client and the arguments, makes no
collaborator call and returns a nil result with a non-nil error whose text is
`unsupported service: ` followed by the mode. -/
theorem unrecognized_mode_is_unsupported (m : String) (hm : ¬ Recognized m)
    (client : ClientRef T) (projectID clusterID snapshotID : String)
    (opts : Option T.ListOptions) (request : Option T.ContinuousJobRequest) :
    let s : Store T := ⟨m, client⟩
    let e : GoError T := .errorString ("unsupported service: " ++ m)
    e.Error = "unsupported service: " ++ m ∧
    s.Checkpoints projectID clusterID opts = ⟨s, [], .returned none (some e)⟩ ∧
    s.ContinuousRestoreJobs projectID clusterID opts = ⟨s, [], .returned none (some e)⟩ ∧
    s.CreateContinuousRestoreJob projectID clusterID request =
      ⟨s, [], .returned none (some e)⟩ ∧
    s.ContinuousSnapshots projectID clusterID opts = ⟨s, [], .returned none (some e)⟩ ∧
    s.ContinuousSnapshot projectID clusterID snapshotID =
      ⟨s, [], .returned none (some e)⟩ ∧
    s.Processes projectID opts = ⟨s, [], .returned none (some e)⟩ := by
  intro s e
  have h1 : m ≠ CloudService := fun h => hm (Or.inl h)
  have h2 : m ≠ CloudManagerService := fun h => hm (Or.inr (Or.inl h))
  have h3 : m ≠ OpsManagerService := fun h => hm (Or.inr (Or.inr h))
  refine ⟨rfl, ?_, ?_, ?_, ?_, ?_, ?_⟩ <;>
    simp [s, e, Store.Checkpoints, Store.ContinuousRestoreJobs,
      Store.CreateContinuousRestoreJob, Store.ContinuousSnapshots, Store.ContinuousSnapshot,
      Store.Processes, Run.unsupported, unsupportedService, h1, h2, h3]

/-- Witness of C3 at mode `unknown-mode` with a SaaS client held. -/
theorem unrecognized_mode_is_unsupported_witness :
    ¬ Recognized "unknown-mode" ∧
    (Store.ContinuousSnapshot (⟨"unknown-mode", .atlas (some failingAtlas)⟩ :
        Store SdkTypes.sample) "p1" "c1" "s1") =
      ⟨⟨"unknown-mode", .atlas (some failingAtlas)⟩, [],
        .returned none (some (.errorString "unsupported service: unknown-mode"))⟩ :=
  ⟨by decide,
    (unrecognized_mode_is_unsupported "unknown-mode" (by decide) (.atlas (some failingAtlas))
      "p1" "c1" "s1" none none).2.2.2.2.2.1⟩

/-! ## Collaborator errors -/

/-- C4 as stated fails: the SaaS client `failingAtlas` answers `Checkpoints.List`
with a record together with the error `boom`; under mode `cloud` the method
`Checkpoints` hands back that record with the error, not a nil result. -/
theorem error_with_result_keeps_result :
    (failingAtlas.Checkpoints_List .background "p1" "c1" none).err = some (.sdk "boom") ∧
    (Store.Checkpoints (⟨CloudService, .atlas (some failingAtlas)⟩ : Store SdkTypes.sample)
        "p1" "c1" none).outcome = .returned (some 7) (some (.sdk "boom")) ∧
    (Store.Checkpoints (⟨CloudService, .atlas (some failingAtlas)⟩ : Store SdkTypes.sample)
        "p1" "c1" none).outcome ≠ .returned none (some (.sdk "boom")) := by
  refine ⟨rfl, rfl, ?_⟩
  intro h
  have h2 : (Outcome.returned (some 7) (some (.sdk "boom")) :
      Outcome SdkTypes.sample Nat) = .returned none (some (.sdk "boom")) := h
  cases h2

/-- C4, amended: for every method and every recognised mode with its paired
client, when the collaborator call returns a non-nil error `e`, the method
returns exactly `e` together with the result the collaborator returned
alongside it (nil when the collaborator returned nil). -/
theorem collaborator_error_passes_through (a : AtlasClient T) (o : OpsmngrClient T)
    (m : String) (hm : SelfHosted m) (e : GoError T)
    (projectID clusterID snapshotID : String)
    (opts : Option T.ListOptions) (request : Option T.ContinuousJobRequest) :
    let sa : Store T := ⟨CloudService, .atlas (some a)⟩
    let so : Store T := ⟨m, .opsmngr (some o)⟩
    ((a.Checkpoints_List .background projectID clusterID opts).err = some e →
      (sa.Checkpoints projectID clusterID opts).outcome =
        .returned (a.Checkpoints_List .background projectID clusterID opts).result (some e)) ∧
    ((a.ContinuousRestoreJobs_List .background projectID clusterID opts).err = some e →
      (sa.ContinuousRestoreJobs projectID clusterID opts).outcome =
        .returned (a.ContinuousRestoreJobs_List .background projectID clusterID opts).result
          (some e)) ∧
    ((a.ContinuousRestoreJobs_Create .background projectID clusterID request).err = some e →
      (sa.CreateContinuousRestoreJob projectID clusterID request).outcome =
        .returned
          (a.ContinuousRestoreJobs_Create .background projectID clusterID request).result
          (some e)) ∧
    ((a.ContinuousSnapshots_List .background projectID clusterID opts).err = some e →
      (sa.ContinuousSnapshots projectID clusterID opts).outcome =
        .returned (a.ContinuousSnapshots_List .background projectID clusterID opts).result
          (some e)) ∧
    ((a.ContinuousSnapshots_Get .background projectID clusterID snapshotID).err = some e →
      (sa.ContinuousSnapshot projectID clusterID snapshotID).outcome =
        .returned (a.ContinuousSnapshots_Get .background projectID clusterID snapshotID).result
          (some e)) ∧
    ((a.Processes_List .background projectID opts).err = some e →
      (sa.Processes projectID opts).outcome =
        .returned (a.Processes_List .background projectID opts).result (some e)) ∧
    ((o.Checkpoints_List .background projectID clusterID opts).err = some e →
      (so.Checkpoints projectID clusterID opts).outcome =
        .returned (o.Checkpoints_List .background projectID clusterID opts).result (some e)) ∧
    ((o.ContinuousRestoreJobs_List .background projectID clusterID opts).err = some e →
      (so.ContinuousRestoreJobs projectID clusterID opts).outcome =
        .returned (o.ContinuousRestoreJobs_List .background projectID clusterID opts).result
          (some e)) ∧
    ((o.ContinuousRestoreJobs_Create .background projectID clusterID request).err = some e →
      (so.CreateContinuousRestoreJob projectID clusterID request).outcome =
        .returned
          (o.ContinuousRestoreJobs_Create .background projectID clusterID request).result
          (some e)) ∧
    ((o.ContinuousSnapshots_List .background projectID clusterID opts).err = some e →
      (so.ContinuousSnapshots projectID clusterID opts).outcome =
        .returned (o.ContinuousSnapshots_List .background projectID clusterID opts).result
          (some e)) ∧
    ((o.ContinuousSnapshots_Get .background projectID clusterID snapshotID).err = some e →
      (so.ContinuousSnapshot projectID clusterID snapshotID).outcome =
        .returned (o.ContinuousSnapshots_Get .background projectID clusterID snapshotID).result
          (some e)) := by
  intro sa so
  refine ⟨?_, ?_, ?_, ?_, ?_, ?_, ?_, ?_, ?_, ?_, ?_⟩
  · intro h; rw [← h]; rfl
  · intro h; rw [← h]; rfl
  · intro h; rw [← h]; rfl
  · intro h; rw [← h]; rfl
  · intro h; rw [← h]; rfl
  · intro h; rw [← h]; rfl
  all_goals
    intro h
    rw [← h]
    rcases hm with hm | hm <;> subst hm <;> rfl

/-- Witness of C4 (amended): the self-hosted sample client fails
`ContinuousSnapshots.Get` with `not found` and a nil snapshot. -/
theorem collaborator_error_passes_through_witness :
    SelfHosted "cloud-manager" ∧
    (sampleOpsmngr.ContinuousSnapshots_Get .background "p1" "c1" "s1").err =
      some (.sdk "not found") ∧
    (Store.ContinuousSnapshot (⟨"cloud-manager", .opsmngr (some sampleOpsmngr)⟩ :
        Store SdkTypes.sample) "p1" "c1" "s1").outcome =
      .returned none (some (.sdk "not found")) :=
  ⟨Or.inl rfl, rfl,
    (collaborator_error_passes_through failingAtlas sampleOpsmngr "cloud-manager"
      (Or.inl rfl) (.sdk "not found") "p1" "c1" "s1" none none).2.2.2.2.2.2.2.2.2.2 rfl⟩

/-! ## Which client is called, and how often -/

/-- C5 as stated fails: under mode `ops-manager` with the self-hosted client
paired with it, `Processes` calls no collaborator at all. -/
theorem processes_ops_manager_calls_nobody :
    (Store.Processes (⟨OpsManagerService, .opsmngr (some sampleOpsmngr)⟩ :
        Store SdkTypes.sample) "g1" none).calls.length = 0 ∧
    (Store.Processes (⟨OpsManagerService, .opsmngr (some sampleOpsmngr)⟩ :
        Store SdkTypes.sample) "g1" none).calls.length ≠ 1 := by
  refine ⟨rfl, ?_⟩
  intro h
  have h2 : (0 : Nat) = 1 := h
  cases h2

/-- C5, amended: with the client paired with the mode, each of the five backup
methods under each of the three recognised modes, and `Processes` under mode
`cloud`, calls exactly one client, the paired one, exactly once; `Processes`
under `cloud-manager` and `ops-manager` calls no client. -/
theorem paired_client_called_once (a : AtlasClient T) (o : OpsmngrClient T)
    (m : String) (hm : SelfHosted m) (projectID clusterID snapshotID : String)
    (opts : Option T.ListOptions) (request : Option T.ContinuousJobRequest) :
    let sa : Store T := ⟨CloudService, .atlas (some a)⟩
    let so : Store T := ⟨m, .opsmngr (some o)⟩
    ((sa.Checkpoints projectID clusterID opts).targets = [.atlas] ∧
      (sa.ContinuousRestoreJobs projectID clusterID opts).targets = [.atlas] ∧
      (sa.CreateContinuousRestoreJob projectID clusterID request).targets = [.atlas] ∧
      (sa.ContinuousSnapshots projectID clusterID opts).targets = [.atlas] ∧
      (sa.ContinuousSnapshot projectID clusterID snapshotID).targets = [.atlas] ∧
      (sa.Processes projectID opts).targets = [.atlas]) ∧
    ((so.Checkpoints projectID clusterID opts).targets = [.opsmngr] ∧
      (so.ContinuousRestoreJobs projectID clusterID opts).targets = [.opsmngr] ∧
      (so.CreateContinuousRestoreJob projectID clusterID request).targets = [.opsmngr] ∧
      (so.ContinuousSnapshots projectID clusterID opts).targets = [.opsmngr] ∧
      (so.ContinuousSnapshot projectID clusterID snapshotID).targets = [.opsmngr] ∧
      (so.Processes projectID opts).targets = []) := by
  intro sa so
  refine ⟨⟨rfl, rfl, rfl, rfl, rfl, rfl⟩, ?_⟩
  rcases hm with hm | hm <;> subst hm <;> exact ⟨rfl, rfl, rfl, rfl, rfl, rfl⟩

/-- Witness of C5 (amended) at mode `cloud-manager`. -/
theorem paired_client_called_once_witness :
    SelfHosted "cloud-manager" ∧
    (Store.CreateContinuousRestoreJob (⟨"cloud-manager", .opsmngr (some sampleOpsmngr)⟩ :
        Store SdkTypes.sample) "p1" "c1" (some 3)).targets = [.opsmngr] ∧
    (Store.Processes (⟨"cloud-manager", .opsmngr (some sampleOpsmngr)⟩ :
        Store SdkTypes.sample) "p1" none).targets = [] :=
  ⟨Or.inl rfl,
    (paired_client_called_once failingAtlas sampleOpsmngr "cloud-manager" (Or.inl rfl)
      "p1" "c1" "s1" none (some 3)).2.2.2.1,
    (paired_client_called_once failingAtlas sampleOpsmngr "cloud-manager" (Or.inl rfl)
      "p1" "c1" "s1" none (some 3)).2.2.2.2.2.2⟩

/-! ## Process listing -/

/-- C6 as stated fails: under mode `cloud` with no client held, `Processes`
panics at the type assertion and reaches no collaborator, so the mode being
`cloud` does not suffice for a collaborator call. -/
theorem processes_cloud_without_client_calls_nobody :
    (Store.Processes (⟨CloudService, .nilInterface⟩ : Store SdkTypes.sample) "g1" none) =
      ⟨⟨CloudService, .nilInterface⟩, [], .panicked .typeAssertion⟩ ∧
    ¬ ((Store.Processes (⟨CloudService, .nilInterface⟩ : Store SdkTypes.sample)
          "g1" none).calls ≠ [] ↔
        (⟨CloudService, .nilInterface⟩ : Store SdkTypes.sample).service = CloudService) := by
  refine ⟨rfl, ?_⟩
  intro h
  exact h.2 rfl rfl

/-- C6, amended: under mode `cloud-manager` or `ops-manager`, whatever the held
client, group id and list options, `Processes` makes no collaborator call and
returns a nil result with the error `unsupported service: <mode>`; for every
store, `Processes` makes a collaborator call if and only if the mode is `cloud`
and the held client is a SaaS client. -/
theorem processes_only_wired_for_cloud (m : String) (hm : SelfHosted m)
    (client : ClientRef T) (s : Store T) (groupID : String) (opts : Option T.ListOptions) :
    Store.Processes ⟨m, client⟩ groupID opts =
      ⟨⟨m, client⟩, [],
        .returned none (some (.errorString ("unsupported service: " ++ m)))⟩ ∧
    ((s.Processes groupID opts).calls ≠ [] ↔
      (s.service = CloudService ∧ ∃ c, s.client = .atlas (some c))) := by
  constructor
  · rcases hm with hm | hm <;> subst hm <;> rfl
  · obtain ⟨service, cl⟩ := s
    by_cases h : service = CloudService
    · subst h
      cases cl with
      | nilInterface => simp [Store.Processes, ClientRef.asAtlas, Run.panic]
      | atlas p =>
        cases p <;> simp [Store.Processes, ClientRef.asAtlas, Run.panic, Run.forward]
      | opsmngr p => simp [Store.Processes, ClientRef.asAtlas, Run.panic]
      | other t => simp [Store.Processes, ClientRef.asAtlas, Run.panic]
    · simp [Store.Processes, Run.unsupported, h]

/-- Witness of C6 (amended) at mode `ops-manager` with a SaaS client held. -/
theorem processes_only_wired_for_cloud_witness :
    SelfHosted "ops-manager" ∧
    Store.Processes (⟨"ops-manager", .atlas (some failingAtlas)⟩ : Store SdkTypes.sample)
        "g1" (some 2) =
      ⟨⟨"ops-manager", .atlas (some failingAtlas)⟩, [],
        .returned none (some (.errorString "unsupported service: ops-manager"))⟩ :=
  ⟨Or.inr rfl,
    (processes_only_wired_for_cloud "ops-manager" (Or.inr rfl) (.atlas (some failingAtlas))
      ⟨"cloud", .nilInterface⟩ "g1" (some 2)).1⟩

/-! ## The transport response is dropped -/

/-- The pair returned after a forwarded call is fixed by the result and the
error of the reply. -/
theorem Run.forward_outcome_congr {α : Type} (s₁ s₂ : Store T) (b : Backend) (ctx : Context)
    (inv : Invocation T) (x y : Triple T α) (h : x.SameVisible y) :
    (Run.forward s₁ b ctx inv x).outcome = (Run.forward s₂ b ctx inv y).outcome := by
  simp [Run.forward, h.1, h.2]

/-- C7: the pair a method returns does not depend on the transport response.
For any mode and any two clients of the same kind whose replies to the call
at hand carry the same result and the same error (the responses may differ),
each of the six methods ends with the same outcome. -/
theorem response_never_in_output (m : String) (a b : AtlasClient T) (o q : OpsmngrClient T)
    (projectID clusterID snapshotID : String)
    (opts : Option T.ListOptions) (request : Option T.ContinuousJobRequest) :
    let sa : Store T := ⟨m, .atlas (some a)⟩
    let sb : Store T := ⟨m, .atlas (some b)⟩
    let so : Store T := ⟨m, .opsmngr (some o)⟩
    let sq : Store T := ⟨m, .opsmngr (some q)⟩
    (((a.Checkpoints_List .background projectID clusterID opts).SameVisible
          (b.Checkpoints_List .background projectID clusterID opts) →
        (sa.Checkpoints projectID clusterID opts).outcome =
          (sb.Checkpoints projectID clusterID opts).outcome) ∧
      ((a.ContinuousRestoreJobs_List .background projectID clusterID opts).SameVisible
          (b.ContinuousRestoreJobs_List .background projectID clusterID opts) →
        (sa.ContinuousRestoreJobs projectID clusterID opts).outcome =
          (sb.ContinuousRestoreJobs projectID clusterID opts).outcome) ∧
      ((a.ContinuousRestoreJobs_Create .background projectID clusterID request).SameVisible
          (b.ContinuousRestoreJobs_Create .background projectID clusterID request) →
        (sa.CreateContinuousRestoreJob projectID clusterID request).outcome =
          (sb.CreateContinuousRestoreJob projectID clusterID request).outcome) ∧
      ((a.ContinuousSnapshots_List .background projectID clusterID opts).SameVisible
          (b.ContinuousSnapshots_List .background projectID clusterID opts) →
        (sa.ContinuousSnapshots projectID clusterID opts).outcome =
          (sb.ContinuousSnapshots projectID clusterID opts).outcome) ∧
      ((a.ContinuousSnapshots_Get .background projectID clusterID snapshotID).SameVisible
          (b.ContinuousSnapshots_Get .background projectID clusterID snapshotID) →
        (sa.ContinuousSnapshot projectID clusterID snapshotID).outcome =
          (sb.ContinuousSnapshot projectID clusterID snapshotID).outcome) ∧
      ((a.Processes_List .background projectID opts).SameVisible
          (b.Processes_List .background projectID opts) →
        (sa.Processes projectID opts).outcome = (sb.Processes projectID opts).outcome)) ∧
    (((o.Checkpoints_List .background projectID clusterID opts).SameVisible
          (q.Checkpoints_List .background projectID clusterID opts) →
        (so.Checkpoints projectID clusterID opts).outcome =
          (sq.Checkpoints projectID clusterID opts).outcome) ∧
      ((o.ContinuousRestoreJobs_List .background projectID clusterID opts).SameVisible
          (q.ContinuousRestoreJobs_List .background projectID clusterID opts) →
        (so.ContinuousRestoreJobs projectID clusterID opts).outcome =
          (sq.ContinuousRestoreJobs projectID clusterID opts).outcome) ∧
      ((o.ContinuousRestoreJobs_Create .background projectID clusterID request).SameVisible
          (q.ContinuousRestoreJobs_Create .background projectID clusterID request) →
        (so.CreateContinuousRestoreJob projectID clusterID request).outcome =
          (sq.CreateContinuousRestoreJob projectID clusterID request).outcome) ∧
      ((o.ContinuousSnapshots_List .background projectID clusterID opts).SameVisible
          (q.ContinuousSnapshots_List .background projectID clusterID opts) →
        (so.ContinuousSnapshots projectID clusterID opts).outcome =
          (sq.ContinuousSnapshots projectID clusterID opts).outcome) ∧
      ((o.ContinuousSnapshots_Get .background projectID clusterID snapshotID).SameVisible
          (q.ContinuousSnapshots_Get .background projectID clusterID snapshotID) →
        (so.ContinuousSnapshot projectID clusterID snapshotID).outcome =
          (sq.ContinuousSnapshot projectID clusterID snapshotID).outcome) ∧
      (so.Processes projectID opts).outcome = (sq.Processes projectID opts).outcome) := by
  intro sa sb so sq
  refine ⟨⟨?_, ?_, ?_, ?_, ?_, ?_⟩, ⟨?_, ?_, ?_, ?_, ?_, ?_⟩⟩
  case refine_12 =>
    simp only [sa, sb, so, sq, Store.Processes, ClientRef.asAtlas, Run.panic, Run.unsupported]
    split_ifs <;> rfl
  all_goals
    intro h
    simp only [sa, sb, so, sq, Store.Checkpoints, Store.ContinuousRestoreJobs,
      Store.CreateContinuousRestoreJob, Store.ContinuousSnapshots, Store.ContinuousSnapshot,
      Store.Processes, ClientRef.asAtlas, ClientRef.asOpsmngr, Run.panic, Run.unsupported]
    split_ifs <;> first
      | rfl
      | exact Run.forward_outcome_congr _ _ _ _ _ _ _ h

/-- Witness of C7: two SaaS clients answering with response 200 and with no
response at all give the same outcome of `Processes` under mode `cloud`. -/
theorem response_never_in_output_witness :
    ((atlasWithResponse (some 200)).Processes_List .background "g1" none).SameVisible
      ((atlasWithResponse none).Processes_List .background "g1" none) ∧
    ((atlasWithResponse (some 200)).Processes_List .background "g1" none).response ≠
      ((atlasWithResponse none).Processes_List .background "g1" none).response ∧
    (Store.Processes (⟨"cloud", .atlas (some (atlasWithResponse (some 200)))⟩ :
        Store SdkTypes.sample) "g1" none).outcome =
      (Store.Processes (⟨"cloud", .atlas (some (atlasWithResponse none))⟩ :
        Store SdkTypes.sample) "g1" none).outcome :=
  ⟨⟨rfl, rfl⟩, by simp [atlasWithResponse],
    (response_never_in_output "cloud" (atlasWithResponse (some 200)) (atlasWithResponse none)
      sampleOpsmngr sampleOpsmngr "g1" "c1" "s1" none none).1.2.2.2.2.2 ⟨rfl, rfl⟩⟩

/-! ## The store is not changed -/

/-- C8: no method changes the store. After each of the six methods, whatever
the store, the arguments and the way the method ends, the store (mode and
client reference) is the one before the call, and the same call on the store
left behind runs exactly as the first one did. -/
theorem store_unchanged (s : Store T) (projectID clusterID snapshotID : String)
    (opts : Option T.ListOptions) (request : Option T.ContinuousJobRequest) :
    ((s.Checkpoints projectID clusterID opts).store = s ∧
      (s.ContinuousRestoreJobs projectID clusterID opts).store = s ∧
      (s.CreateContinuousRestoreJob projectID clusterID request).store = s ∧
      (s.ContinuousSnapshots projectID clusterID opts).store = s ∧
      (s.ContinuousSnapshot projectID clusterID snapshotID).store = s ∧
      (s.Processes projectID opts).store = s) ∧
    ((s.Checkpoints projectID clusterID opts).store.Checkpoints projectID clusterID opts =
        s.Checkpoints projectID clusterID opts ∧
      (s.ContinuousRestoreJobs projectID clusterID opts).store.ContinuousRestoreJobs
          projectID clusterID opts =
        s.ContinuousRestoreJobs projectID clusterID opts ∧
      (s.CreateContinuousRestoreJob projectID clusterID request).store.CreateContinuousRestoreJob
          projectID clusterID request =
        s.CreateContinuousRestoreJob projectID clusterID request ∧
      (s.ContinuousSnapshots projectID clusterID opts).store.ContinuousSnapshots
          projectID clusterID opts =
        s.ContinuousSnapshots projectID clusterID opts ∧
      (s.ContinuousSnapshot projectID clusterID snapshotID).store.ContinuousSnapshot
          projectID clusterID snapshotID =
        s.ContinuousSnapshot projectID clusterID snapshotID ∧
      (s.Processes projectID opts).store.Processes projectID opts =
        s.Processes projectID opts) := by
  have h1 : (s.Checkpoints projectID clusterID opts).store = s := by
    unfold Store.Checkpoints; split_ifs <;> (try split) <;> rfl
  have h2 : (s.ContinuousRestoreJobs projectID clusterID opts).store = s := by
    unfold Store.ContinuousRestoreJobs; split_ifs <;> (try split) <;> rfl
  have h3 : (s.CreateContinuousRestoreJob projectID clusterID request).store = s := by
    unfold Store.CreateContinuousRestoreJob; split_ifs <;> (try split) <;> rfl
  have h4 : (s.ContinuousSnapshots projectID clusterID opts).store = s := by
    unfold Store.ContinuousSnapshots; split_ifs <;> (try split) <;> rfl
  have h5 : (s.ContinuousSnapshot projectID clusterID snapshotID).store = s := by
    unfold Store.ContinuousSnapshot; split_ifs <;> (try split) <;> rfl
  have h6 : (s.Processes projectID opts).store = s := by
    unfold Store.Processes; split_ifs <;> (try split) <;> rfl
  refine ⟨⟨h1, h2, h3, h4, h5, h6⟩, ?_, ?_, ?_, ?_, ?_, ?_⟩
  · rw [h1]
  · rw [h2]
  · rw [h3]
  · rw [h4]
  · rw [h5]
  · rw [h6]

/-! ## Mode and client out of step -/

/-- C9 as stated fails: under the recognised mode `cloud-manager` with no
client held (or with a SaaS client), `Processes` does not panic; it makes no
call and returns the unsupported-service error. -/
theorem processes_cloud_manager_mismatch_returns :
    (Store.Processes (⟨CloudManagerService, .nilInterface⟩ : Store SdkTypes.sample)
        "g1" none).outcome =
      .returned none (some (.errorString "unsupported service: cloud-manager")) ∧
    (Store.Processes (⟨CloudManagerService, .atlas (some failingAtlas)⟩ :
        Store SdkTypes.sample) "g1" none).outcome =
      .returned none (some (.errorString "unsupported service: cloud-manager")) ∧
    ∀ p, (Store.Processes (⟨CloudManagerService, .nilInterface⟩ : Store SdkTypes.sample)
        "g1" none).outcome ≠ .panicked p := by
  refine ⟨rfl, rfl, ?_⟩
  intro p h
  have h2 : (Outcome.returned none
      (some (.errorString "unsupported service: cloud-manager")) :
      Outcome SdkTypes.sample (List (Option Nat))) = .panicked p := h
  cases h2

/-- C9, amended: when the held client does not have the dynamic type paired
with the recognised mode (anything but `*atlas.Client` under `cloud`, anything
but `*opsmngr.Client` under `cloud-manager` or `ops-manager`), each of the five
backup methods panics at the type assertion before any collaborator call, and
so does `Processes` under mode `cloud`; under the two self-hosted modes
`Processes` returns the unsupported-service error instead. -/
theorem mismatched_client_panics (s : Store T) (h : s.Mismatched)
    (projectID clusterID snapshotID : String)
    (opts : Option T.ListOptions) (request : Option T.ContinuousJobRequest) :
    s.Checkpoints projectID clusterID opts = ⟨s, [], .panicked .typeAssertion⟩ ∧
    s.ContinuousRestoreJobs projectID clusterID opts = ⟨s, [], .panicked .typeAssertion⟩ ∧
    s.CreateContinuousRestoreJob projectID clusterID request =
      ⟨s, [], .panicked .typeAssertion⟩ ∧
    s.ContinuousSnapshots projectID clusterID opts = ⟨s, [], .panicked .typeAssertion⟩ ∧
    s.ContinuousSnapshot projectID clusterID snapshotID =
      ⟨s, [], .panicked .typeAssertion⟩ ∧
    (s.service = CloudService →
      s.Processes projectID opts = ⟨s, [], .panicked .typeAssertion⟩) ∧
    (SelfHosted s.service →
      s.Processes projectID opts =
        ⟨s, [], .returned none (some (.errorString ("unsupported service: " ++ s.service)))⟩) := by
  obtain ⟨service, cl⟩ := s
  have hp : SelfHosted service →
      Store.Processes ⟨service, cl⟩ projectID opts =
        ⟨⟨service, cl⟩, [],
          .returned none (some (.errorString ("unsupported service: " ++ service)))⟩ := by
    intro hs
    rcases hs with hs | hs <;> subst hs <;> rfl
  rcases h with ⟨hc, ha⟩ | ⟨hs, ho⟩
  · simp only at hc ha
    subst hc
    refine ⟨?_, ?_, ?_, ?_, ?_, ?_, hp⟩
    all_goals
      cases cl with
      | atlas p => simp [ClientRef.isAtlas] at ha
      | nilInterface => intros; rfl
      | opsmngr p => intros; rfl
      | other t => intros; rfl
  · simp only at hs ho
    refine ⟨?_, ?_, ?_, ?_, ?_, ?_, hp⟩
    case refine_6 =>
      intro hc
      subst hc
      rcases hs with hs | hs <;> exact absurd hs (by decide)
    all_goals
      cases cl with
      | opsmngr p => simp [ClientRef.isOpsmngr] at ho
      | nilInterface => rcases hs with hs | hs <;> subst hs <;> rfl
      | atlas p => rcases hs with hs | hs <;> subst hs <;> rfl
      | other t => rcases hs with hs | hs <;> subst hs <;> rfl

/-- Witness of C9 (amended): a self-hosted client held under mode `cloud`. -/
theorem mismatched_client_panics_witness :
    Store.Mismatched (⟨"cloud", .opsmngr (some sampleOpsmngr)⟩ : Store SdkTypes.sample) ∧
    Store.Checkpoints (⟨"cloud", .opsmngr (some sampleOpsmngr)⟩ : Store SdkTypes.sample)
        "p1" "c1" none =
      ⟨⟨"cloud", .opsmngr (some sampleOpsmngr)⟩, [], .panicked .typeAssertion⟩ :=
  ⟨Or.inl ⟨rfl, rfl⟩,
    (mismatched_client_panics ⟨"cloud", .opsmngr (some sampleOpsmngr)⟩ (Or.inl ⟨rfl, rfl⟩)
      "p1" "c1" "s1" none none).1⟩

/-! ## No panic under the pairing -/

/-- C10: when the store pairs its mode with the matching client (a SaaS client
under `cloud`, a self-hosted client under `cloud-manager` or `ops-manager`), or
when its mode is not recognised (whatever the client), none of the six methods
panics: each returns a `(result, error)` pair, for all arguments. -/
theorem paired_or_unrecognized_returns (s : Store T)
    (h : s.Paired ∨ ¬ Recognized s.service)
    (projectID clusterID snapshotID : String)
    (opts : Option T.ListOptions) (request : Option T.ContinuousJobRequest) :
    (∃ r e, (s.Checkpoints projectID clusterID opts).outcome = .returned r e) ∧
    (∃ r e, (s.ContinuousRestoreJobs projectID clusterID opts).outcome = .returned r e) ∧
    (∃ r e, (s.CreateContinuousRestoreJob projectID clusterID request).outcome =
      .returned r e) ∧
    (∃ r e, (s.ContinuousSnapshots projectID clusterID opts).outcome = .returned r e) ∧
    (∃ r e, (s.ContinuousSnapshot projectID clusterID snapshotID).outcome = .returned r e) ∧
    (∃ r e, (s.Processes projectID opts).outcome = .returned r e) := by
  obtain ⟨service, cl⟩ := s
  rcases h with (⟨hc, c, hcl⟩ | ⟨hs, c, hcl⟩) | hn
  · simp only at hc hcl
    subst hc; subst hcl
    exact ⟨⟨_, _, rfl⟩, ⟨_, _, rfl⟩, ⟨_, _, rfl⟩, ⟨_, _, rfl⟩, ⟨_, _, rfl⟩, ⟨_, _, rfl⟩⟩
  · simp only at hs hcl
    subst hcl
    rcases hs with hs | hs <;> subst hs <;>
      exact ⟨⟨_, _, rfl⟩, ⟨_, _, rfl⟩, ⟨_, _, rfl⟩, ⟨_, _, rfl⟩, ⟨_, _, rfl⟩, ⟨_, _, rfl⟩⟩
  · simp only at hn
    have h1 : service ≠ CloudService := fun h => hn (Or.inl h)
    have h2 : service ≠ CloudManagerService := fun h => hn (Or.inr (Or.inl h))
    have h3 : service ≠ OpsManagerService := fun h => hn (Or.inr (Or.inr h))
    refine ⟨?_, ?_, ?_, ?_, ?_, ?_⟩ <;>
      simp [Store.Checkpoints, Store.ContinuousRestoreJobs,
        Store.CreateContinuousRestoreJob, Store.ContinuousSnapshots, Store.ContinuousSnapshot,
        Store.Processes, Run.unsupported, h1, h2, h3]

/-- Witness of C10 at a paired store under mode `cloud`. -/
theorem paired_or_unrecognized_returns_witness :
    (Store.Paired (⟨"cloud", .atlas (some failingAtlas)⟩ : Store SdkTypes.sample) ∨
      ¬ Recognized "cloud") ∧
    ∃ r e, (Store.Processes (⟨"cloud", .atlas (some failingAtlas)⟩ : Store SdkTypes.sample)
      "g1" none).outcome = .returned r e :=
  ⟨Or.inl (Or.inl ⟨rfl, failingAtlas, rfl⟩),
    (paired_or_unrecognized_returns ⟨"cloud", .atlas (some failingAtlas)⟩
      (Or.inl (Or.inl ⟨rfl, failingAtlas, rfl⟩)) "g1" "c1" "s1" none none).2.2.2.2.2⟩

end MongoCLI
